import Mathlib

/-!
Verification of the MeliCAD MEP extension (`src/Mod/BIM/ArchMEP.py`).

The development shallowly embeds the `_ArchWaterPipe` document object:
its MEP property bag becomes the structure `PipeState` (floats become
real numbers, lengths are taken through `.Value` in millimetres as in
the source), and the methods `updateMaterialProperties`,
`calculateHydraulics` and `onChanged` become functions on that state.

Python exception semantics are made explicit: `calculateHydraulics`
returns `Except PipeState PipeState`, where `Except.error s` means an
exception escaped the method while the object had already been mutated
to state `s` (the source assigns `obj.Velocity` at line 166 before the
friction-factor expression at line 175 can raise), and `Except.ok s`
means the method returned normally leaving the object in state `s`.
The two ways line 175 can raise are modelled one by one:
`math.log10` raises `ValueError` on a non-positive argument, and
`0.25 / (...) ** 2` raises `ZeroDivisionError` when the logarithm is
exactly zero.
-/

namespace ArchMEP

/-- The MEP-relevant property bag of a `_ArchWaterPipe` document object,
as registered by `setMEPProperties` (ArchMEP.py lines 69-125).
`Diameter` and `Length` stand for `obj.Diameter.Value` and
`obj.Length.Value`, in millimetres. -/
structure PipeState where
  FlowRate : ℝ
  Diameter : ℝ
  Length : ℝ
  Pressure : ℝ
  PressureLoss : ℝ
  Velocity : ℝ
  PipeMaterial : String
  RoughnessCoeff : ℝ

/-- `flow_m3s = obj.FlowRate / 60000.0` (line 157). -/
noncomputable def flow_m3s (obj : PipeState) : ℝ :=
  obj.FlowRate / 60000

/-- `diameter_m = obj.Diameter.Value / 1000.0` (line 158). -/
noncomputable def diameter_m (obj : PipeState) : ℝ :=
  obj.Diameter / 1000

/-- `length_m = obj.Length.Value / 1000.0` (line 159). -/
noncomputable def length_m (obj : PipeState) : ℝ :=
  obj.Length / 1000

/-- `area = math.pi * (diameter_m / 2) ** 2` (line 162). -/
noncomputable def area (obj : PipeState) : ℝ :=
  Real.pi * (diameter_m obj / 2) ^ 2

/-- `velocity = flow_m3s / area if area > 0 else 0` (line 165). -/
noncomputable def velocity (obj : PipeState) : ℝ :=
  if 0 < area obj then flow_m3s obj / area obj else 0

/-- `reynolds = velocity * diameter_m / 1.004e-6` (line 171). -/
noncomputable def reynolds (obj : PipeState) : ℝ :=
  velocity obj * diameter_m obj / 1.004e-6

/-- The argument of `math.log10` in the friction-factor expression:
`obj.RoughnessCoeff / (3.7 * diameter_m) + 5.74 / (reynolds ** 0.9)`
(line 175). -/
noncomputable def logArg (obj : PipeState) : ℝ :=
  obj.RoughnessCoeff / (3.7 * diameter_m obj) + 5.74 / reynolds obj ^ (0.9 : ℝ)

/-- `friction_factor = 0.25 / (math.log10(...)) ** 2` (line 175). -/
noncomputable def friction_factor (obj : PipeState) : ℝ :=
  0.25 / (Real.logb 10 (logArg obj)) ^ 2

/-- `pressure_loss_pa = friction_factor * (length_m / diameter_m) * (1000 * velocity ** 2) / 2`
(line 178). -/
noncomputable def pressure_loss_pa (obj : PipeState) : ℝ :=
  friction_factor obj * (length_m obj / diameter_m obj) * (1000 * velocity obj ^ 2) / 2

/-- `_ArchWaterPipe.calculateHydraulics` (lines 151-181), with Python
exception propagation made explicit.  `Except.ok s` is a normal return
leaving the object in state `s`; `Except.error s` is an escaping
exception (`ValueError` from `math.log10` on a non-positive argument,
or `ZeroDivisionError` when that logarithm is exactly `0`, so that
`0.25 / 0.0 ** 2` divides by zero) raised after the object was already
mutated to state `s`. -/
noncomputable def calculateHydraulics (obj : PipeState) : Except PipeState PipeState :=
  if obj.FlowRate = 0 ∨ obj.Diameter = 0 then
    .ok obj
  else
    let obj1 : PipeState := { obj with Velocity := velocity obj }
    if 0 < reynolds obj then
      if 0 < logArg obj then
        if Real.logb 10 (logArg obj) = 0 then
          .error obj1
        else
          .ok { obj1 with PressureLoss := pressure_loss_pa obj / 100000 }
      else
        .error obj1
    else
      .ok { obj1 with PressureLoss := 0 }

/-- The `material_roughness` dictionary of `updateMaterialProperties`
(lines 141-148). -/
noncomputable def material_roughness : List (String × ℝ) :=
  [("Copper", 0.0015), ("PVC", 0.0001), ("PEX", 0.0001),
   ("Steel", 0.045), ("Cast Iron", 0.25), ("HDPE", 0.0001)]

/-- `material_roughness.get(obj.PipeMaterial, 0.0015)` (line 149). -/
noncomputable def material_roughness_get (m : String) : ℝ :=
  (material_roughness.lookup m).getD 0.0015

/-- `_ArchWaterPipe.updateMaterialProperties` (lines 139-149). -/
noncomputable def updateMaterialProperties (obj : PipeState) : PipeState :=
  { obj with RoughnessCoeff := material_roughness_get obj.PipeMaterial }

/-- `_ArchWaterPipe.onChanged` (lines 127-137).  The inherited
`ArchPipe._ArchPipe.onChanged` call on line 129 belongs to the host CAD
framework, outside this repository; it does not know the MEP properties
this subclass registers, so on the state modelled here it is the
identity. -/
noncomputable def onChanged (obj : PipeState) (prop : String) : Except PipeState PipeState :=
  let obj1 : PipeState := if prop = "PipeMaterial" then updateMaterialProperties obj else obj
  if prop ∈ ["FlowRate", "Diameter", "Length", "PipeMaterial", "RoughnessCoeff"] then
    calculateHydraulics obj1
  else
    .ok obj1

/-- The object state as left behind by a call, whether the call
returned normally or an exception escaped. -/
def outState : Except PipeState PipeState → PipeState
  | .ok s => s
  | .error s => s

/-! ### Basic facts about the embedded definitions -/

lemma area_pos (obj : PipeState) (hD : obj.Diameter ≠ 0) : 0 < area obj := by
  have h2 : diameter_m obj / 2 ≠ 0 := by
    simp only [diameter_m, div_ne_zero_iff]
    norm_num [hD]
  exact mul_pos Real.pi_pos (pow_two_pos_of_ne_zero h2)

lemma velocity_of_diameter_ne (obj : PipeState) (hD : obj.Diameter ≠ 0) :
    velocity obj = flow_m3s obj / area obj := by
  rw [velocity, if_pos (area_pos obj hD)]

/-- With a nonzero flow and diameter, the call always stores the newly
computed velocity, whether it then returns normally or raises. -/
lemma outState_velocity (obj : PipeState) (hQ : obj.FlowRate ≠ 0) (hD : obj.Diameter ≠ 0) :
    (outState (calculateHydraulics obj)).Velocity = velocity obj := by
  unfold calculateHydraulics
  rw [if_neg (not_or.mpr ⟨hQ, hD⟩)]
  split_ifs <;> rfl

/-- `calculateHydraulics` never writes `RoughnessCoeff`. -/
lemma outState_roughness (obj : PipeState) :
    (outState (calculateHydraulics obj)).RoughnessCoeff = obj.RoughnessCoeff := by
  unfold calculateHydraulics
  split_ifs <;> rfl

/-! ### A family of concrete pipe states

Choosing `FlowRate = 15000 * π * 1.004e-6 * c` with `Diameter = 1000`
makes the intermediate quantities of `calculateHydraulics` come out in
closed form: the velocity is `1.004e-6 * c` and the Reynolds number is
exactly `c`. -/

/-- A pipe state with diameter 1000 mm, length `L` mm, roughness `r`,
and flow chosen so that the Reynolds number is exactly `c`. -/
noncomputable def engState (r c L : ℝ) : PipeState where
  FlowRate := 15000 * Real.pi * 1.004e-6 * c
  Diameter := 1000
  Length := L
  Pressure := 2.5
  PressureLoss := 0
  Velocity := 0
  PipeMaterial := "Copper"
  RoughnessCoeff := r

lemma eng_FlowRate_pos (r L : ℝ) {c : ℝ} (hc : 0 < c) : 0 < (engState r c L).FlowRate :=
  mul_pos (mul_pos (mul_pos (by norm_num) Real.pi_pos) (by norm_num)) hc

lemma eng_FlowRate_neg (r L : ℝ) {c : ℝ} (hc : c < 0) : (engState r c L).FlowRate < 0 :=
  mul_neg_of_pos_of_neg (mul_pos (mul_pos (by norm_num) Real.pi_pos) (by norm_num)) hc

lemma eng_area (r c L : ℝ) : area (engState r c L) = Real.pi / 4 := by
  unfold area diameter_m engState
  norm_num
  ring

lemma eng_velocity (r c L : ℝ) : velocity (engState r c L) = 1.004e-6 * c := by
  rw [velocity, if_pos (area_pos _ (by norm_num [engState])), eng_area]
  unfold flow_m3s engState
  have hπ := Real.pi_ne_zero
  field_simp
  ring

lemma eng_reynolds (r c L : ℝ) : reynolds (engState r c L) = c := by
  rw [reynolds, eng_velocity]
  unfold diameter_m engState
  norm_num

lemma eng_logArg (r c L : ℝ) : logArg (engState r c L) = r / 3.7 + 5.74 / c ^ (0.9 : ℝ) := by
  rw [logArg, eng_reynolds]
  unfold diameter_m engState
  norm_num

lemma rpow_ten_ninths_rpow {a : ℝ} (ha : 0 ≤ a) : (a ^ ((10 : ℝ) / 9)) ^ (0.9 : ℝ) = a := by
  have h : ((10 : ℝ) / 9) * (0.9 : ℝ) = 1 := by norm_num
  rw [← Real.rpow_mul ha, h, Real.rpow_one]

/-! ### Branch evaluation lemmas for calculateHydraulics -/

lemma diameter_m_pos (obj : PipeState) (hD : 0 < obj.Diameter) : 0 < diameter_m obj :=
  div_pos hD (by norm_num)

lemma flow_m3s_pos (obj : PipeState) (hQ : 0 < obj.FlowRate) : 0 < flow_m3s obj :=
  div_pos hQ (by norm_num)

lemma velocity_pos (obj : PipeState) (hQ : 0 < obj.FlowRate) (hD : 0 < obj.Diameter) :
    0 < velocity obj := by
  rw [velocity_of_diameter_ne obj (ne_of_gt hD)]
  exact div_pos (flow_m3s_pos obj hQ) (area_pos obj (ne_of_gt hD))

lemma velocity_neg (obj : PipeState) (hQ : obj.FlowRate < 0) (hD : 0 < obj.Diameter) :
    velocity obj < 0 := by
  rw [velocity_of_diameter_ne obj (ne_of_gt hD)]
  exact div_neg_of_neg_of_pos (div_neg_of_neg_of_pos hQ (by norm_num))
    (area_pos obj (ne_of_gt hD))

lemma reynolds_pos (obj : PipeState) (hQ : 0 < obj.FlowRate) (hD : 0 < obj.Diameter) :
    0 < reynolds obj :=
  div_pos (mul_pos (velocity_pos obj hQ hD) (diameter_m_pos obj hD)) (by norm_num)

lemma reynolds_neg (obj : PipeState) (hQ : obj.FlowRate < 0) (hD : 0 < obj.Diameter) :
    reynolds obj < 0 :=
  div_neg_of_neg_of_pos (mul_neg_of_neg_of_pos (velocity_neg obj hQ hD)
    (diameter_m_pos obj hD)) (by norm_num)

/-- When the Reynolds number is non-positive the method stores the new
velocity, sets `PressureLoss` to `0` and returns normally (the `else`
branch at line 181). -/
lemma calc_nonpos_reynolds (obj : PipeState) (hQ : obj.FlowRate ≠ 0) (hD : obj.Diameter ≠ 0)
    (hre : ¬ 0 < reynolds obj) :
    calculateHydraulics obj =
      .ok { obj with Velocity := velocity obj, PressureLoss := 0 } := by
  simp only [calculateHydraulics]
  rw [if_neg (not_or.mpr ⟨hQ, hD⟩), if_neg hre]

/-- When the Reynolds number is positive, a normal return forces the
logarithm to be nonzero and fully determines the returned state. -/
lemma calc_ok_spec (obj s : PipeState) (hQ : obj.FlowRate ≠ 0) (hD : obj.Diameter ≠ 0)
    (hre : 0 < reynolds obj) (hok : calculateHydraulics obj = .ok s) :
    Real.logb 10 (logArg obj) ≠ 0 ∧
      s = { obj with Velocity := velocity obj,
                     PressureLoss := pressure_loss_pa obj / 100000 } := by
  simp only [calculateHydraulics] at hok
  rw [if_neg (not_or.mpr ⟨hQ, hD⟩), if_pos hre] at hok
  split_ifs at hok with h1 h2
  injection hok with h
  subst h
  exact ⟨h2, rfl⟩

/-- When the Reynolds number is positive but the logarithm argument is
non-positive, `math.log10` raises `ValueError` with the new velocity
already stored. -/
lemma calc_err_log_nonpos (obj : PipeState) (hQ : obj.FlowRate ≠ 0) (hD : obj.Diameter ≠ 0)
    (hre : 0 < reynolds obj) (hpos : ¬ 0 < logArg obj) :
    calculateHydraulics obj = .error { obj with Velocity := velocity obj } := by
  simp only [calculateHydraulics]
  rw [if_neg (not_or.mpr ⟨hQ, hD⟩), if_pos hre, if_neg hpos]

/-- When the logarithm evaluates to exactly `0`, the friction-factor
expression raises `ZeroDivisionError` with the new velocity already
stored. -/
lemma calc_err_log_zero (obj : PipeState) (hQ : obj.FlowRate ≠ 0) (hD : obj.Diameter ≠ 0)
    (hre : 0 < reynolds obj) (hpos : 0 < logArg obj)
    (hlg : Real.logb 10 (logArg obj) = 0) :
    calculateHydraulics obj = .error { obj with Velocity := velocity obj } := by
  simp only [calculateHydraulics]
  rw [if_neg (not_or.mpr ⟨hQ, hD⟩), if_pos hre, if_pos hpos, if_pos hlg]

/-- On physically meaningful inputs whose logarithm argument is not `1`,
the method returns normally with the Darcy-Weisbach pressure loss, and
the computed velocity and friction factor are positive. -/
lemma calc_success (obj : PipeState) (hQ : 0 < obj.FlowRate) (hD : 0 < obj.Diameter)
    (hr : 0 ≤ obj.RoughnessCoeff) (hne1 : logArg obj ≠ 1) :
    calculateHydraulics obj =
      .ok { obj with Velocity := velocity obj,
                     PressureLoss := pressure_loss_pa obj / 100000 } ∧
      0 < velocity obj ∧ 0 < friction_factor obj := by
  have hre : 0 < reynolds obj := reynolds_pos obj hQ hD
  have hla : 0 < logArg obj := by
    have h1 : 0 ≤ obj.RoughnessCoeff / (3.7 * diameter_m obj) :=
      div_nonneg hr (mul_nonneg (by norm_num) (diameter_m_pos obj hD).le)
    have h2 : 0 < 5.74 / reynolds obj ^ (0.9 : ℝ) :=
      div_pos (by norm_num) (Real.rpow_pos_of_pos hre _)
    exact add_pos_of_nonneg_of_pos h1 h2
  have hlg : Real.logb 10 (logArg obj) ≠ 0 :=
    Real.logb_ne_zero_of_pos_of_ne_one (by norm_num) hla hne1
  refine ⟨?_, velocity_pos obj hQ hD, ?_⟩
  · simp only [calculateHydraulics]
    rw [if_neg (not_or.mpr ⟨ne_of_gt hQ, ne_of_gt hD⟩), if_pos hre, if_pos hla, if_neg hlg]
  · exact div_pos (by norm_num) (pow_two_pos_of_ne_zero hlg)

/-! ### Claims -/

/-- Claim C1: for every call to `calculateHydraulics` with `FlowRate ≠ 0`
and `Diameter ≠ 0`, the stored `Velocity` equals the flow rate converted
from L/min to m³/s divided by the cross-sectional area
`π * ((Diameter/1000) / 2)²` computed from the diameter converted from
mm to m. -/
theorem claim_C1_velocity_formula (obj : PipeState)
    (hQ : obj.FlowRate ≠ 0) (hD : obj.Diameter ≠ 0) :
    (outState (calculateHydraulics obj)).Velocity =
      (obj.FlowRate / 60000) / (Real.pi * ((obj.Diameter / 1000) / 2) ^ 2) := by
  rw [outState_velocity obj hQ hD, velocity_of_diameter_ne obj hD]
  unfold flow_m3s area diameter_m
  norm_num

theorem claim_C1_witness :
    (engState 0 1 1000).FlowRate ≠ 0 ∧ (engState 0 1 1000).Diameter ≠ 0 ∧
    (outState (calculateHydraulics (engState 0 1 1000))).Velocity =
      ((engState 0 1 1000).FlowRate / 60000) /
        (Real.pi * (((engState 0 1 1000).Diameter / 1000) / 2) ^ 2) :=
  ⟨ne_of_gt (eng_FlowRate_pos 0 1000 one_pos), by norm_num [engState],
    claim_C1_velocity_formula (engState 0 1 1000)
      (ne_of_gt (eng_FlowRate_pos 0 1000 one_pos)) (by norm_num [engState])⟩

/-- Claim C3: when `FlowRate = 0` or `Diameter = 0`, `calculateHydraulics`
returns immediately without modifying any stored property; in particular
the previously stored `Velocity` and `PressureLoss` are left unchanged. -/
theorem claim_C3_zero_noop (obj : PipeState)
    (h : obj.FlowRate = 0 ∨ obj.Diameter = 0) :
    calculateHydraulics obj = .ok obj := by
  unfold calculateHydraulics
  rw [if_pos h]

theorem claim_C3_witness :
    (({ engState 0 1 1000 with FlowRate := 0 } : PipeState).FlowRate = 0 ∨
      ({ engState 0 1 1000 with FlowRate := 0 } : PipeState).Diameter = 0) ∧
    calculateHydraulics { engState 0 1 1000 with FlowRate := 0 } =
      .ok { engState 0 1 1000 with FlowRate := 0 } :=
  ⟨Or.inl rfl, claim_C3_zero_noop _ (Or.inl rfl)⟩

/-- Claim C2: for every call with `FlowRate ≠ 0` and `Diameter ≠ 0` that
stores a result: if the Reynolds number `Re = v·d/1.004e-6` (with `v` the
computed velocity and `d` the diameter in meters) is positive, the stored
`PressureLoss` is `f·(L/d)·(1000·v²)/2/100000` bar with
`f = 0.25/(log10(RoughnessCoeff/(3.7·d) + 5.74/Re^0.9))²`; if `Re ≤ 0`,
the stored `PressureLoss` is `0`. -/
theorem claim_C2_pressure_loss_formula (obj s : PipeState)
    (hQ : obj.FlowRate ≠ 0) (hD : obj.Diameter ≠ 0)
    (hok : calculateHydraulics obj = .ok s) :
    (0 < s.Velocity * (obj.Diameter / 1000) / 1.004e-6 →
      s.PressureLoss =
        0.25 / (Real.logb 10 (obj.RoughnessCoeff / (3.7 * (obj.Diameter / 1000)) +
              5.74 / (s.Velocity * (obj.Diameter / 1000) / 1.004e-6) ^ (0.9 : ℝ))) ^ 2 *
            ((obj.Length / 1000) / (obj.Diameter / 1000)) *
            (1000 * s.Velocity ^ 2) / 2 / 100000) ∧
    (s.Velocity * (obj.Diameter / 1000) / 1.004e-6 ≤ 0 → s.PressureLoss = 0) := by
  by_cases hre : 0 < reynolds obj
  · obtain ⟨hlg, rfl⟩ := calc_ok_spec obj s hQ hD hre hok
    constructor
    · intro _
      rfl
    · intro hle
      have h' : reynolds obj ≤ 0 := hle
      exact absurd hre (not_lt.mpr h')
  · rw [calc_nonpos_reynolds obj hQ hD hre] at hok
    injection hok with h
    subst h
    constructor
    · intro hgt
      have h' : 0 < reynolds obj := hgt
      exact absurd h' hre
    · intro _
      rfl

theorem claim_C2_witness :
    (engState 0 (-1) 1000).FlowRate ≠ 0 ∧ (engState 0 (-1) 1000).Diameter ≠ 0 ∧
    calculateHydraulics (engState 0 (-1) 1000) =
      .ok { engState 0 (-1) 1000 with Velocity := 1.004e-6 * (-1), PressureLoss := 0 } ∧
    ({ engState 0 (-1) 1000 with
        Velocity := 1.004e-6 * (-1), PressureLoss := 0 } : PipeState).PressureLoss = 0 := by
  have hQ : (engState 0 (-1) 1000).FlowRate ≠ 0 :=
    ne_of_lt (eng_FlowRate_neg 0 1000 (by norm_num))
  have hD : (engState 0 (-1) 1000).Diameter ≠ 0 := by norm_num [engState]
  have hok : calculateHydraulics (engState 0 (-1) 1000) =
      .ok { engState 0 (-1) 1000 with Velocity := 1.004e-6 * (-1), PressureLoss := 0 } := by
    have h := calc_nonpos_reynolds (engState 0 (-1) 1000) hQ hD
      (by rw [eng_reynolds]; norm_num)
    rwa [eng_velocity] at h
  refine ⟨hQ, hD, hok, (claim_C2_pressure_loss_formula _ _ hQ hD hok).2 ?_⟩
  show (1.004e-6 * (-1) : ℝ) * ((engState 0 (-1) 1000).Diameter / 1000) / 1.004e-6 ≤ 0
  norm_num [engState]

/-- Claim C6: velocity scales linearly in flow: doubling a nonzero flow
rate while holding diameter (positive), length and roughness fixed
exactly doubles the velocity computed and stored by
`calculateHydraulics`. -/
theorem claim_C6_velocity_linear_in_flow (obj : PipeState)
    (hD : 0 < obj.Diameter) (hQ : obj.FlowRate ≠ 0) :
    (outState (calculateHydraulics { obj with FlowRate := 2 * obj.FlowRate })).Velocity =
      2 * (outState (calculateHydraulics obj)).Velocity := by
  have hD' : obj.Diameter ≠ 0 := ne_of_gt hD
  have h2Q : ({ obj with FlowRate := 2 * obj.FlowRate } : PipeState).FlowRate ≠ 0 :=
    mul_ne_zero two_ne_zero hQ
  have h2D : ({ obj with FlowRate := 2 * obj.FlowRate } : PipeState).Diameter ≠ 0 := hD'
  rw [outState_velocity _ h2Q h2D, outState_velocity obj hQ hD',
    velocity_of_diameter_ne _ h2D, velocity_of_diameter_ne obj hD']
  simp only [flow_m3s, area, diameter_m]
  ring

theorem claim_C6_witness :
    0 < (engState 0 1 1000).Diameter ∧ (engState 0 1 1000).FlowRate ≠ 0 ∧
    (outState (calculateHydraulics
        { engState 0 1 1000 with FlowRate := 2 * (engState 0 1 1000).FlowRate })).Velocity =
      2 * (outState (calculateHydraulics (engState 0 1 1000))).Velocity :=
  ⟨by norm_num [engState], ne_of_gt (eng_FlowRate_pos 0 1000 one_pos),
    claim_C6_velocity_linear_in_flow (engState 0 1 1000) (by norm_num [engState])
      (ne_of_gt (eng_FlowRate_pos 0 1000 one_pos))⟩

/-- Claim C9: with `FlowRate < 0` and `Diameter > 0` the method performs
a partial update rather than a no-op: it stores a strictly negative
`Velocity` (no clamping), and since the Reynolds number is then negative
it stores `PressureLoss = 0` and returns normally. -/
theorem claim_C9_negative_flow (obj : PipeState)
    (hQ : obj.FlowRate < 0) (hD : 0 < obj.Diameter) :
    calculateHydraulics obj =
      .ok { obj with Velocity := velocity obj, PressureLoss := 0 } ∧
    velocity obj < 0 :=
  ⟨calc_nonpos_reynolds obj (ne_of_lt hQ) (ne_of_gt hD)
      (not_lt.mpr (reynolds_neg obj hQ hD).le),
   velocity_neg obj hQ hD⟩

theorem claim_C9_witness :
    (engState 0 (-1) 2000).FlowRate < 0 ∧ 0 < (engState 0 (-1) 2000).Diameter ∧
    (calculateHydraulics (engState 0 (-1) 2000) =
      .ok { engState 0 (-1) 2000 with Velocity := velocity (engState 0 (-1) 2000), PressureLoss := 0 } ∧
    velocity (engState 0 (-1) 2000) < 0) :=
  ⟨eng_FlowRate_neg 0 2000 (by norm_num), by norm_num [engState],
    claim_C9_negative_flow (engState 0 (-1) 2000)
      (eng_FlowRate_neg 0 2000 (by norm_num)) (by norm_num [engState])⟩

/-- Whether a call returned normally (`Except.ok`), i.e. completed
without a Python exception escaping. -/
def isOk : Except PipeState PipeState → Bool
  | .ok _ => true
  | .error _ => false

/-- Claim C4 counterexample: a valid input (`FlowRate > 0`,
`Diameter > 0`, `Length > 0`, `RoughnessCoeff ≥ 0`) on which
`calculateHydraulics` does not complete: the Reynolds number is
`11.48^(10/9)`, so the friction-factor logarithm argument is
`1.85/3.7 + 5.74/11.48 = 1` exactly, `math.log10` returns `0`, and
`0.25 / 0.0 ** 2` raises `ZeroDivisionError`. -/
theorem claim_C4_counterexample :
    0 < (engState 1.85 ((11.48 : ℝ) ^ ((10 : ℝ) / 9)) 1000).FlowRate ∧
    0 < (engState 1.85 ((11.48 : ℝ) ^ ((10 : ℝ) / 9)) 1000).Diameter ∧
    0 < (engState 1.85 ((11.48 : ℝ) ^ ((10 : ℝ) / 9)) 1000).Length ∧
    0 ≤ (engState 1.85 ((11.48 : ℝ) ^ ((10 : ℝ) / 9)) 1000).RoughnessCoeff ∧
    isOk (calculateHydraulics (engState 1.85 ((11.48 : ℝ) ^ ((10 : ℝ) / 9)) 1000)) = false := by
  have hc : (0 : ℝ) < (11.48 : ℝ) ^ ((10 : ℝ) / 9) := Real.rpow_pos_of_pos (by norm_num) _
  have hla : logArg (engState 1.85 ((11.48 : ℝ) ^ ((10 : ℝ) / 9)) 1000) = 1 := by
    rw [eng_logArg, rpow_ten_ninths_rpow (by norm_num : (0 : ℝ) ≤ 11.48)]
    norm_num
  refine ⟨eng_FlowRate_pos _ _ hc, by norm_num [engState], by norm_num [engState],
    by norm_num [engState], ?_⟩
  rw [calc_err_log_zero _ (ne_of_gt (eng_FlowRate_pos _ _ hc)) (by norm_num [engState])
    (by rw [eng_reynolds]; exact hc) (by rw [hla]; norm_num)
    (by rw [hla]; exact Real.logb_one)]
  rfl

/-- Claim C4 amended: for every input with `FlowRate > 0`,
`Diameter > 0`, `Length > 0`, `RoughnessCoeff ≥ 0` whose friction-factor
logarithm argument is not exactly `1`, `calculateHydraulics` completes
and the stored `Velocity` and `PressureLoss` are both non-negative. -/
theorem claim_C4_amended (obj : PipeState) (hQ : 0 < obj.FlowRate) (hD : 0 < obj.Diameter)
    (hL : 0 < obj.Length) (hr : 0 ≤ obj.RoughnessCoeff) (hne1 : logArg obj ≠ 1) :
    isOk (calculateHydraulics obj) = true ∧
    0 ≤ (outState (calculateHydraulics obj)).Velocity ∧
    0 ≤ (outState (calculateHydraulics obj)).PressureLoss := by
  obtain ⟨heq, hv, hf⟩ := calc_success obj hQ hD hr hne1
  rw [heq]
  refine ⟨rfl, hv.le, ?_⟩
  show 0 ≤ pressure_loss_pa obj / 100000
  have hlm : 0 < length_m obj := div_pos hL (by norm_num)
  have hld : 0 ≤ length_m obj / diameter_m obj := (div_pos hlm (diameter_m_pos obj hD)).le
  have hpa : 0 ≤ pressure_loss_pa obj :=
    div_nonneg (mul_nonneg (mul_nonneg hf.le hld) (by positivity)) (by norm_num)
  exact div_nonneg hpa (by norm_num)

theorem claim_C4_witness :
    0 < (engState 0 ((2 : ℝ) ^ ((10 : ℝ) / 9)) 1000).FlowRate ∧
    0 < (engState 0 ((2 : ℝ) ^ ((10 : ℝ) / 9)) 1000).Diameter ∧
    0 < (engState 0 ((2 : ℝ) ^ ((10 : ℝ) / 9)) 1000).Length ∧
    0 ≤ (engState 0 ((2 : ℝ) ^ ((10 : ℝ) / 9)) 1000).RoughnessCoeff ∧
    logArg (engState 0 ((2 : ℝ) ^ ((10 : ℝ) / 9)) 1000) ≠ 1 ∧
    (isOk (calculateHydraulics (engState 0 ((2 : ℝ) ^ ((10 : ℝ) / 9)) 1000)) = true ∧
      0 ≤ (outState (calculateHydraulics (engState 0 ((2 : ℝ) ^ ((10 : ℝ) / 9)) 1000))).Velocity ∧
      0 ≤ (outState (calculateHydraulics (engState 0 ((2 : ℝ) ^ ((10 : ℝ) / 9)) 1000))).PressureLoss) := by
  have hc : (0 : ℝ) < (2 : ℝ) ^ ((10 : ℝ) / 9) := Real.rpow_pos_of_pos (by norm_num) _
  have hne : logArg (engState 0 ((2 : ℝ) ^ ((10 : ℝ) / 9)) 1000) ≠ 1 := by
    rw [eng_logArg, rpow_ten_ninths_rpow (by norm_num : (0 : ℝ) ≤ 2)]
    norm_num
  exact ⟨eng_FlowRate_pos _ _ hc, by norm_num [engState], by norm_num [engState],
    by norm_num [engState], hne,
    claim_C4_amended _ (eng_FlowRate_pos _ _ hc) (by norm_num [engState])
      (by norm_num [engState]) (by norm_num [engState]) hne⟩

/-- Claim C5 evaluation: with the contrived roughness `-3.7` and a flow
making the Reynolds number `5.74^(10/9)`, the logarithm argument is
`-3.7/3.7 + 5.74/5.74 = 0`, so `math.log10` raises `ValueError`; the
exception escapes `calculateHydraulics`, and by then the call has
already overwritten the previously stored `Velocity` (here `0`) with
the new positive value, so stored state is not left intact. -/
theorem claim_C5_exception_escapes :
    calculateHydraulics (engState (-3.7) ((5.74 : ℝ) ^ ((10 : ℝ) / 9)) 1000) =
      .error { engState (-3.7) ((5.74 : ℝ) ^ ((10 : ℝ) / 9)) 1000 with Velocity := 1.004e-6 * ((5.74 : ℝ) ^ ((10 : ℝ) / 9)) } ∧
    (engState (-3.7) ((5.74 : ℝ) ^ ((10 : ℝ) / 9)) 1000).Velocity = 0 ∧
    0 < 1.004e-6 * ((5.74 : ℝ) ^ ((10 : ℝ) / 9)) := by
  have hc : (0 : ℝ) < (5.74 : ℝ) ^ ((10 : ℝ) / 9) := Real.rpow_pos_of_pos (by norm_num) _
  have hla : logArg (engState (-3.7) ((5.74 : ℝ) ^ ((10 : ℝ) / 9)) 1000) = 0 := by
    rw [eng_logArg, rpow_ten_ninths_rpow (by norm_num : (0 : ℝ) ≤ 5.74)]
    norm_num
  have h := calc_err_log_nonpos (engState (-3.7) ((5.74 : ℝ) ^ ((10 : ℝ) / 9)) 1000)
    (ne_of_gt (eng_FlowRate_pos _ _ hc)) (by norm_num [engState])
    (by rw [eng_reynolds]; exact hc) (by rw [hla]; norm_num)
  rw [eng_velocity] at h
  exact ⟨h, rfl, mul_pos (by norm_num) hc⟩

/-! Setting only `Length` changes none of the quantities computed
before the pressure-loss step. -/

lemma velocity_set_length (obj : PipeState) (L : ℝ) :
    velocity { obj with Length := L } = velocity obj := rfl

lemma reynolds_set_length (obj : PipeState) (L : ℝ) :
    reynolds { obj with Length := L } = reynolds obj := rfl

lemma logArg_set_length (obj : PipeState) (L : ℝ) :
    logArg { obj with Length := L } = logArg obj := rfl

lemma friction_set_length (obj : PipeState) (L : ℝ) :
    friction_factor { obj with Length := L } = friction_factor obj := rfl

/-- Claim C7: for fixed positive flow and diameter (roughness and the
rest of the state held fixed), if two calls at lengths `0 < L1 < L2`
both store a result, the pressure loss stored at `L2` is strictly
greater than at `L1`. -/
theorem claim_C7_pressure_loss_monotone_in_length (obj : PipeState) (L1 L2 : ℝ)
    (s1 s2 : PipeState) (hQ : 0 < obj.FlowRate) (hD : 0 < obj.Diameter)
    (hL1 : 0 < L1) (hL12 : L1 < L2)
    (h1 : calculateHydraulics { obj with Length := L1 } = .ok s1)
    (h2 : calculateHydraulics { obj with Length := L2 } = .ok s2) :
    s1.PressureLoss < s2.PressureLoss := by
  have hre1 : 0 < reynolds { obj with Length := L1 } := by
    rw [reynolds_set_length]
    exact reynolds_pos obj hQ hD
  have hre2 : 0 < reynolds { obj with Length := L2 } := by
    rw [reynolds_set_length]
    exact reynolds_pos obj hQ hD
  have hQ1 : ({ obj with Length := L1 } : PipeState).FlowRate ≠ 0 := ne_of_gt hQ
  have hD1 : ({ obj with Length := L1 } : PipeState).Diameter ≠ 0 := ne_of_gt hD
  have hQ2 : ({ obj with Length := L2 } : PipeState).FlowRate ≠ 0 := ne_of_gt hQ
  have hD2 : ({ obj with Length := L2 } : PipeState).Diameter ≠ 0 := ne_of_gt hD
  obtain ⟨hlg1, rfl⟩ := calc_ok_spec _ _ hQ1 hD1 hre1 h1
  obtain ⟨hlg2, rfl⟩ := calc_ok_spec _ _ hQ2 hD2 hre2 h2
  show pressure_loss_pa { obj with Length := L1 } / 100000 <
    pressure_loss_pa { obj with Length := L2 } / 100000
  have hF : 0 < friction_factor obj := by
    have hlg : Real.logb 10 (logArg obj) ≠ 0 := by
      rw [← logArg_set_length obj L1]
      exact hlg1
    exact div_pos (by norm_num) (pow_two_pos_of_ne_zero hlg)
  have hv : 0 < velocity obj := velocity_pos obj hQ hD
  have hd : 0 < diameter_m obj := diameter_m_pos obj hD
  have hvv : 0 < 1000 * velocity obj ^ 2 := mul_pos (by norm_num) (pow_pos hv 2)
  rw [div_lt_div_iff_of_pos_right (by norm_num : (0 : ℝ) < 100000)]
  unfold pressure_loss_pa
  rw [friction_set_length obj L1, friction_set_length obj L2,
    velocity_set_length obj L1, velocity_set_length obj L2]
  have hlm1 : length_m { obj with Length := L1 } = L1 / 1000 := rfl
  have hlm2 : length_m { obj with Length := L2 } = L2 / 1000 := rfl
  have hdm1 : diameter_m { obj with Length := L1 } = diameter_m obj := rfl
  have hdm2 : diameter_m { obj with Length := L2 } = diameter_m obj := rfl
  rw [hlm1, hlm2, hdm1, hdm2, div_lt_div_iff_of_pos_right (by norm_num : (0 : ℝ) < 2),
    mul_lt_mul_right hvv, mul_lt_mul_left hF, div_lt_div_iff_of_pos_right hd,
    div_lt_div_iff_of_pos_right (by norm_num : (0 : ℝ) < 1000)]
  exact hL12

theorem claim_C7_witness :
    0 < (engState 0 ((2 : ℝ) ^ ((10 : ℝ) / 9)) 1000).FlowRate ∧
    0 < (engState 0 ((2 : ℝ) ^ ((10 : ℝ) / 9)) 1000).Diameter ∧
    (0 : ℝ) < 1000 ∧ (1000 : ℝ) < 2000 ∧
    calculateHydraulics { engState 0 ((2 : ℝ) ^ ((10 : ℝ) / 9)) 1000 with Length := 1000 } =
      .ok { engState 0 ((2 : ℝ) ^ ((10 : ℝ) / 9)) 1000 with
        Velocity := velocity (engState 0 ((2 : ℝ) ^ ((10 : ℝ) / 9)) 1000),
        PressureLoss := pressure_loss_pa (engState 0 ((2 : ℝ) ^ ((10 : ℝ) / 9)) 1000) / 100000 } ∧
    calculateHydraulics { engState 0 ((2 : ℝ) ^ ((10 : ℝ) / 9)) 1000 with Length := 2000 } =
      .ok { engState 0 ((2 : ℝ) ^ ((10 : ℝ) / 9)) 2000 with
        Velocity := velocity (engState 0 ((2 : ℝ) ^ ((10 : ℝ) / 9)) 2000),
        PressureLoss := pressure_loss_pa (engState 0 ((2 : ℝ) ^ ((10 : ℝ) / 9)) 2000) / 100000 } ∧
    pressure_loss_pa (engState 0 ((2 : ℝ) ^ ((10 : ℝ) / 9)) 1000) / 100000 <
      pressure_loss_pa (engState 0 ((2 : ℝ) ^ ((10 : ℝ) / 9)) 2000) / 100000 := by
  have hc : (0 : ℝ) < (2 : ℝ) ^ ((10 : ℝ) / 9) := Real.rpow_pos_of_pos (by norm_num) _
  have hQ : 0 < (engState 0 ((2 : ℝ) ^ ((10 : ℝ) / 9)) 1000).FlowRate :=
    eng_FlowRate_pos _ _ hc
  have hD : 0 < (engState 0 ((2 : ℝ) ^ ((10 : ℝ) / 9)) 1000).Diameter := by
    norm_num [engState]
  have hgood := calc_success (engState 0 ((2 : ℝ) ^ ((10 : ℝ) / 9)) 1000) hQ hD
    (by norm_num [engState])
    (by rw [eng_logArg, rpow_ten_ninths_rpow (by norm_num : (0 : ℝ) ≤ 2)]; norm_num)
  have hgood2 := calc_success (engState 0 ((2 : ℝ) ^ ((10 : ℝ) / 9)) 2000)
    (eng_FlowRate_pos _ _ hc) (by norm_num [engState]) (by norm_num [engState])
    (by rw [eng_logArg, rpow_ten_ninths_rpow (by norm_num : (0 : ℝ) ≤ 2)]; norm_num)
  have e1 : ({ engState 0 ((2 : ℝ) ^ ((10 : ℝ) / 9)) 1000 with Length := 1000 } : PipeState) =
      engState 0 ((2 : ℝ) ^ ((10 : ℝ) / 9)) 1000 := rfl
  have e2 : ({ engState 0 ((2 : ℝ) ^ ((10 : ℝ) / 9)) 1000 with Length := 2000 } : PipeState) =
      engState 0 ((2 : ℝ) ^ ((10 : ℝ) / 9)) 2000 := rfl
  refine ⟨hQ, hD, by norm_num, by norm_num,
    by rw [e1]; exact hgood.1, by rw [e2]; exact hgood2.1, ?_⟩
  have := claim_C7_pressure_loss_monotone_in_length
    (engState 0 ((2 : ℝ) ^ ((10 : ℝ) / 9)) 1000) 1000 2000 _ _ hQ hD
    (by norm_num) (by norm_num) (by rw [e1]; exact hgood.1) (by rw [e2]; exact hgood2.1)
  exact this

/-- Claim C8: the material→roughness lookup used by
`updateMaterialProperties` maps Copper to 0.0015, PVC, PEX and HDPE to
0.0001, Steel to 0.045 and Cast Iron to 0.25, and maps every other
material name to the fallback default 0.0015. -/
theorem claim_C8_material_table :
    (∀ obj : PipeState,
      (updateMaterialProperties obj).RoughnessCoeff =
        material_roughness_get obj.PipeMaterial) ∧
    material_roughness_get "Copper" = 0.0015 ∧
    material_roughness_get "PVC" = 0.0001 ∧
    material_roughness_get "PEX" = 0.0001 ∧
    material_roughness_get "HDPE" = 0.0001 ∧
    material_roughness_get "Steel" = 0.045 ∧
    material_roughness_get "Cast Iron" = 0.25 ∧
    ∀ m : String, m ∉ ["Copper", "PVC", "PEX", "Steel", "Cast Iron", "HDPE"] →
      material_roughness_get m = 0.0015 := by
  refine ⟨fun obj => rfl, rfl, rfl, rfl, rfl, rfl, rfl, ?_⟩
  intro m hm
  simp only [List.mem_cons, List.not_mem_nil, or_false, not_or] at hm
  obtain ⟨h1, h2, h3, h4, h5, h6⟩ := hm
  simp [material_roughness_get, material_roughness, List.lookup,
    beq_eq_false_iff_ne.mpr h1, beq_eq_false_iff_ne.mpr h2, beq_eq_false_iff_ne.mpr h3,
    beq_eq_false_iff_ne.mpr h4, beq_eq_false_iff_ne.mpr h5, beq_eq_false_iff_ne.mpr h6]

theorem claim_C8_witness :
    ("Concrete" : String) ∉ ["Copper", "PVC", "PEX", "Steel", "Cast Iron", "HDPE"] ∧
    material_roughness_get "Concrete" = 0.0015 :=
  ⟨by decide, claim_C8_material_table.2.2.2.2.2.2.2 "Concrete" (by decide)⟩

/-- Claim C10: after `onChanged` handles a `PipeMaterial` change, the
stored `RoughnessCoeff` equals the material-table value for the new
`PipeMaterial`; any previously user-overridden `RoughnessCoeff` (any
value in `obj`) is overwritten before the hydraulics are recomputed,
and the recomputation never writes `RoughnessCoeff`, so a per-instance
override does not survive a material change. -/
theorem claim_C10_roughness_overwritten (obj : PipeState) :
    (outState (onChanged obj "PipeMaterial")).RoughnessCoeff =
      material_roughness_get obj.PipeMaterial := by
  simp only [onChanged]
  rw [if_pos trivial,
    if_pos (by decide :
      ("PipeMaterial" : String) ∈ ["FlowRate", "Diameter", "Length", "PipeMaterial", "RoughnessCoeff"]),
    outState_roughness]
  rfl

end ArchMEP
